import Mathlib

/-!
Verification of the conversation router of the ChatOpsLLM API
(`src/api/src/routers/conversation.py`).

The router is embedded shallowly: the external collaborators (the prompt
catalog `PROMPT_TEMPLATES` / `SYSTEM_PROMPTS` and the model-invocation
adapter of `src.llms.litellm`) are an explicit environment, and the handler
is a pure function from the environment and the request to an HTTP-level
result together with a trace of observable events (span openings, adapter
calls, log lines, metric recordings), in the order the Python code
performs them.
-/

namespace Conversation

/-- One turn of conversation history (a role/content pair). -/
structure Turn where
  role : String
  content : String
  deriving DecidableEq, Repr

/-- The request body `ConversationIn` (prompt_type, message, history, stream,
latest_prompt). -/
structure ConversationIn where
  prompt_type : String
  message : String
  history : List Turn
  stream : Bool
  latest_prompt : String
  deriving DecidableEq, Repr

/-- The structured output of the enhancement call: an object carrying a
`final_prompt` field. -/
structure EnhancedPrompt where
  final_prompt : String
  deriving DecidableEq, Repr

/-- One incremental unit of a streamed model response: the content of
`chunk.choices[0].delta`, possibly absent (`None`). -/
structure Fragment where
  content : Option String
  deriving DecidableEq, Repr

/-- Observable events performed by the handler, in program order.  A
`spanStart` records the span's name, its parent (the span that is current
when `start_as_current_span` runs — OpenTelemetry makes the new span its
child), and the explicit `trace.Link` targets passed via `links=[...]`. -/
inductive Event where
  | spanStart (name : String) (parent : Option String) (links : List String)
  | logInfo (msg : String)
  | logError (msg : String)
  | enhanceCall (prompt : String) (model : String) (system_prompt : String)
      (parse : Bool) (prompt_type : String)
  | generateCall (prompt : String) (model : String) (history : List Turn)
  | counterAdd (amount : Nat) (label : String)
  | histRecord (value : Nat) (label : String)
  deriving DecidableEq, Repr

/-- The environment: the prompt catalog (two keyed read-only mappings, a
missing key raising `KeyError`) and the model-invocation adapter, split into
its single-shot structured use (enhancement), its single-shot plain use
(generation), and its streaming use.  A streaming call yields a finite list
of fragments followed by an optional terminal error raised mid-sequence.
`.error` carries `str(e)` of the exception the Python call raises. -/
structure Env where
  PROMPT_TEMPLATES : String → Option (String → String)
  SYSTEM_PROMPTS : String → Option String
  enhanceAdapter : String → String → String → String → Except String EnhancedPrompt
  generateAdapter : String → String → List Turn → Except String String
  streamAdapter : String → String → List Turn → List Fragment × Option String

/-- `str(KeyError(k))` in Python: the repr of the missing key. -/
def keyErrorStr (k : String) : String := "\x27" ++ k ++ "\x27"

/-- `enhance_prompt(prompt_type, latest_prompt)`: logs, resolves
`SYSTEM_PROMPTS[prompt_type]`, invokes the adapter single-shot with
`model='gpt-4o-mini'`, `parse=True`, and returns the structured result's
`final_prompt` field.  Errors (the `KeyError` of a missing system prompt, or
any adapter error) propagate to the caller. -/
def enhance_prompt (env : Env) (prompt_type : String) (latest_prompt : String) :
    Except String String × List Event :=
  match env.SYSTEM_PROMPTS prompt_type with
  | none =>
      (.error (keyErrorStr prompt_type),
       [Event.logInfo ("Enhancing prompt with latest prompt: \"" ++ latest_prompt ++ "\"")])
  | some sys =>
      match env.enhanceAdapter latest_prompt "gpt-4o-mini" sys prompt_type with
      | .error e =>
          (.error e,
           [Event.logInfo ("Enhancing prompt with latest prompt: \"" ++ latest_prompt ++ "\""),
            Event.enhanceCall latest_prompt "gpt-4o-mini" sys true prompt_type])
      | .ok p =>
          (.ok p.final_prompt,
           [Event.logInfo ("Enhancing prompt with latest prompt: \"" ++ latest_prompt ++ "\""),
            Event.enhanceCall latest_prompt "gpt-4o-mini" sys true prompt_type])

/-- The body of `stream_generator`: iterate the adapter's fragments in yield
order, emitting `chunk.choices[0].delta.content` as one chunk whenever it is
not `None`, skipping the fragment otherwise while still advancing, and
keeping a running `chunk_count` (used only for logging). -/
def stream_generator (chunks : List Fragment) (chunk_count : Nat) : List String :=
  match chunks with
  | [] => []
  | c :: rest =>
      match c.content with
      | some s => s :: stream_generator rest (chunk_count + 1)
      | none => stream_generator rest chunk_count

/-- The response value handed to the transport layer: either the JSON body
`{'response': ...}` or a `StreamingResponse` wrapping the (not yet consumed)
generator, which captures `final_prompt` and `history`. -/
inductive Response where
  | json (response : String)
  | streaming (final_prompt : String) (history : List Turn) (media_type : String)
  deriving DecidableEq, Repr

/-- The HTTP-level outcome: a 200 with a response value, or an
`HTTPException(status_code, detail)`. -/
inductive EndpointResult where
  | ok (r : Response)
  | httpError (status_code : Nat) (detail : String)
  deriving DecidableEq, Repr

/-- `handle_streaming_response`: returns a `StreamingResponse` over
`stream_generator()` with media type `text/event-stream`; no adapter call
happens until the stream is consumed. -/
def handle_streaming_response (final_prompt : String) (history : List Turn) :
    Response :=
  .streaming final_prompt history "text/event-stream"

/-- Consuming the streaming response after the handler returned: the
generator issues the streaming adapter call with `model='gemini-flash'` and
delivers the filtered chunks; an adapter error raised mid-sequence surfaces
as the terminal error of the stream, after the already-delivered prefix. -/
def consume_stream (env : Env) (final_prompt : String) (history : List Turn) :
    List String × Option String :=
  match env.streamAdapter final_prompt "gemini-flash" history with
  | (frags, err) => (stream_generator frags 0, err)

/-- `handle_non_streaming_response`: one single-shot generation adapter call
with `model='gemini-flash'`; on success the body is `{'response': response}`,
an adapter error propagates. -/
def handle_non_streaming_response (env : Env) (final_prompt : String)
    (history : List Turn) : Except String Response × List Event :=
  match env.generateAdapter final_prompt "gemini-flash" history with
  | .error e => (.error e, [Event.generateCall final_prompt "gemini-flash" history])
  | .ok r => (.ok (.json r), [Event.generateCall final_prompt "gemini-flash" history])

/-- Step 1 of the pipeline: enhance when `history` is empty, otherwise use
`message` verbatim as the final prompt. -/
def step1_result (env : Env) (data : ConversationIn) (formatted : String) :
    Except String String × List Event :=
  if data.history = [] then enhance_prompt env data.prompt_type formatted
  else (.ok data.message, [])

/-- The `try` block of `conversation_endpoint`: resolve and format the
template (`PROMPT_TEMPLATES[prompt_type].format(prompt=latest_prompt)` — a
missing key raises `KeyError` before either stage), open the step-1 span
(a child of the still-current root span, and additionally carrying an
explicit link to it), compute the final prompt, open the step-2 span (again
a child of the root span, with the same explicit link — the step-1 span has
already been exited), and dispatch to the streaming or non-streaming
generation handler. -/
def conversation_try (env : Env) (data : ConversationIn) :
    Except String Response × List Event :=
  match env.PROMPT_TEMPLATES data.prompt_type with
  | none => (.error (keyErrorStr data.prompt_type), [])
  | some template =>
      match step1_result env data (template data.latest_prompt) with
      | (.error e, evs1) =>
          (.error e, Event.spanStart "step-1-enhance_prompt" (some "processors") ["processors"] :: evs1)
      | (.ok final_prompt, evs1) =>
          if data.stream then
            (.ok (handle_streaming_response final_prompt data.history),
             Event.spanStart "step-1-enhance_prompt" (some "processors") ["processors"] :: evs1 ++
               [Event.logInfo
                 ("Generating response with prompt: \"" ++ final_prompt ++ "\""),
                Event.spanStart "step-2-generate_response" (some "processors") ["processors"]])
          else
            match handle_non_streaming_response env final_prompt data.history with
            | (res, evs2) =>
                (res, Event.spanStart "step-1-enhance_prompt" (some "processors") ["processors"] :: evs1 ++
                  [Event.logInfo
                    ("Generating response with prompt: \"" ++ final_prompt ++ "\""),
                   Event.spanStart "step-2-generate_response" (some "processors") ["processors"]] ++ evs2)

/-- The metrics label: the route identity. -/
def api_label : String := "/api/promptalchemy_conversation/conversation"

/-- `total_duration`, initialized to 0 and never updated before being
recorded into the histogram. -/
def total_duration_init : Nat := 0

/-- `conversation_endpoint(data)`: opens the root span `processors`, runs the
`try` block, converts any exception into
`HTTPException(500, 'An Error occurred: ' + str(e))` after logging it, and —
in a `finally` block executed on every exit path — increments the request
counter by 1 and records `total_duration` into the histogram, both labeled
with the route. -/
def conversation_endpoint (env : Env) (data : ConversationIn) :
    EndpointResult × List Event :=
  let root := Event.spanStart "processors" none []
  let metrics := [Event.counterAdd 1 api_label,
                  Event.histRecord total_duration_init api_label]
  match conversation_try env data with
  | (.ok r, evs) => (.ok r, root :: evs ++ metrics)
  | (.error e, evs) =>
      (.httpError 500 ("An Error occurred: " ++ e),
       root :: evs ++ [Event.logError ("Error in conversation endpoint: " ++ e)]
         ++ metrics)

/-! ### Trace observations -/

/-- Is this event an enhancement adapter invocation? -/
def isEnhanceCall : Event → Bool
  | .enhanceCall .. => true
  | _ => false

/-- Is this event a (non-streaming) generation adapter invocation? -/
def isGenerateCall : Event → Bool
  | .generateCall .. => true
  | _ => false

/-- Is this event any model-invocation-adapter call? -/
def isAdapterCall (e : Event) : Bool := isEnhanceCall e || isGenerateCall e

/-- Number of enhancement adapter invocations in a trace. -/
def enhanceCallCount (evs : List Event) : Nat := evs.countP isEnhanceCall

/-- Number of generation adapter invocations in a trace. -/
def generateCallCount (evs : List Event) : Nat := evs.countP isGenerateCall

/-- Number of adapter invocations of any kind in a trace. -/
def adapterCallCount (evs : List Event) : Nat := evs.countP isAdapterCall

/-- The enhancement-call events of a trace, in order. -/
def enhanceCallEvents (evs : List Event) : List Event := evs.filter isEnhanceCall

/-- The (name, parent, link targets) of a span-opening event, if it is one. -/
def spanOf : Event → Option (String × Option String × List String)
  | .spanStart n p l => some (n, p, l)
  | _ => none

/-- The span-opening events of a trace: (name, parent, link targets), in
order. -/
def spanEvents (evs : List Event) : List (String × Option String × List String) :=
  evs.filterMap spanOf

/-- The names of the spans opened in a trace, in order. -/
def spanNames (evs : List Event) : List String := (spanEvents evs).map Prod.fst

/-- The (amount, label) of a counter-increment event, if it is one. -/
def counterOf : Event → Option (Nat × String)
  | .counterAdd n l => some (n, l)
  | _ => none

/-- The counter increments of a trace: (amount, label), in order. -/
def counterEvents (evs : List Event) : List (Nat × String) :=
  evs.filterMap counterOf

/-- The (value, label) of a histogram-recording event, if it is one. -/
def histOf : Event → Option (Nat × String)
  | .histRecord v l => some (v, l)
  | _ => none

/-- The histogram recordings of a trace: (value, label), in order. -/
def histogramEvents (evs : List Event) : List (Nat × String) :=
  evs.filterMap histOf

/-- The prompt of a non-streaming generation call event, if it is one. -/
def generatePromptOf : Event → Option String
  | .generateCall p _ _ => some p
  | _ => none

/-- The prompts handed to the Generation stage: the prompt of every
non-streaming generation call in the trace, and the prompt captured by a
returned streaming response. -/
def generationPrompts (r : EndpointResult) (evs : List Event) : List String :=
  evs.filterMap generatePromptOf ++
  (match r with
   | .ok (.streaming fp _ _) => [fp]
   | _ => [])

/-- Does the result carry a 4xx (client-error) status? -/
def statusIs4xx : EndpointResult → Prop
  | .httpError s _ => 400 ≤ s ∧ s < 500
  | .ok _ => False

instance (r : EndpointResult) : Decidable (statusIs4xx r) := by
  cases r with
  | ok _ => exact isFalse (fun h => h)
  | httpError s d => exact inferInstanceAs (Decidable (400 ≤ s ∧ s < 500))


/-! ### Concrete instances used by witnesses and counterexamples -/

/-- A sample catalog template (stands for `PROMPT_TEMPLATES[k].format`). -/
def sampleTemplate : String → String := fun p => "T[" ++ p ++ "]"

/-- A fully successful environment whose catalog knows one key, `creative`. -/
def baseEnv : Env where
  PROMPT_TEMPLATES := fun k => if k = "creative" then some sampleTemplate else none
  SYSTEM_PROMPTS := fun k => if k = "creative" then some "SYS" else none
  enhanceAdapter := fun p _ _ _ => .ok ⟨"ENH " ++ p⟩
  generateAdapter := fun p _ _ => .ok ("GEN " ++ p)
  streamAdapter := fun _ _ _ => ([⟨some "a"⟩, ⟨none⟩, ⟨some "b"⟩], none)

/-- `baseEnv` with a failing enhancement adapter. -/
def envEnhFail : Env :=
  { baseEnv with enhanceAdapter := fun _ _ _ _ => .error "enh-boom" }

/-- `baseEnv` with a failing generation adapter. -/
def envGenFail : Env :=
  { baseEnv with generateAdapter := fun _ _ _ => .error "gen-boom" }

/-- `baseEnv` whose streaming adapter raises after yielding three fragments
(two of them with content). -/
def envStreamFail : Env :=
  { baseEnv with
      streamAdapter := fun _ _ _ =>
        ([⟨some "a"⟩, ⟨none⟩, ⟨some "b"⟩], some "mid-boom") }

/-- A first-turn request (empty history), non-streaming. -/
def dataFirst : ConversationIn := ⟨"creative", "hi", [], false, "write a poem"⟩

/-- A later-turn non-streaming request. -/
def dataNext : ConversationIn :=
  ⟨"creative", "tell me more", [⟨"user", "hi"⟩], false, "x"⟩

/-- A later-turn streaming request. -/
def dataStream : ConversationIn :=
  ⟨"creative", "tell me more", [⟨"user", "hi"⟩], true, "x"⟩

/-- A first-turn request whose prompt_type is missing from the catalog. -/
def dataBad : ConversationIn := ⟨"unknown_key", "hi", [], false, "write a poem"⟩

/-- A later-turn request whose prompt_type is missing from the catalog. -/
def dataBadNext : ConversationIn :=
  ⟨"unknown_key", "tell me more", [⟨"user", "hi"⟩], false, "x"⟩

/-! ### Trace-shape lemmas -/

/-- The kinds of events the `try` block can emit (no metric events). -/
def isTryEvent : Event → Bool
  | .spanStart .. => true
  | .logInfo .. => true
  | .enhanceCall .. => true
  | .generateCall .. => true
  | _ => false

lemma enhance_prompt_events (env : Env) (pt lp : String) :
    ∀ e ∈ (enhance_prompt env pt lp).2, isTryEvent e = true := by
  unfold enhance_prompt
  cases hs : env.SYSTEM_PROMPTS pt with
  | none => simp [isTryEvent]
  | some sys =>
      cases ha : env.enhanceAdapter lp "gpt-4o-mini" sys pt with
      | error e => simp [ha, isTryEvent]
      | ok p => simp [ha, isTryEvent]

lemma step1_result_events (env : Env) (data : ConversationIn) (formatted : String) :
    ∀ e ∈ (step1_result env data formatted).2, isTryEvent e = true := by
  unfold step1_result
  by_cases hh : data.history = []
  · simpa [hh] using enhance_prompt_events env data.prompt_type formatted
  · simp [hh]

lemma handle_non_streaming_events (env : Env) (fp : String) (h : List Turn) :
    ∀ e ∈ (handle_non_streaming_response env fp h).2, isTryEvent e = true := by
  unfold handle_non_streaming_response
  cases ha : env.generateAdapter fp "gemini-flash" h with
  | error e => simp [ha, isTryEvent]
  | ok r => simp [ha, isTryEvent]

lemma conversation_try_events (env : Env) (data : ConversationIn) :
    ∀ e ∈ (conversation_try env data).2, isTryEvent e = true := by
  unfold conversation_try
  cases hpt : env.PROMPT_TEMPLATES data.prompt_type with
  | none => simp
  | some template =>
      cases hst : step1_result env data (template data.latest_prompt) with
      | mk res evs1 =>
          have h1 : ∀ e ∈ evs1, isTryEvent e = true := by
            have h0 := step1_result_events env data (template data.latest_prompt)
            rw [hst] at h0; exact h0
          cases res with
          | error e => simp only [hst]; simpa [isTryEvent] using h1
          | ok fp =>
              by_cases hs : data.stream
              · simp only [hst, hs, if_true]
                intro e he
                rcases List.mem_cons.mp he with h | he2
                · subst h; rfl
                · rcases List.mem_append.mp he2 with h | h
                  · exact h1 _ h
                  · rcases List.mem_cons.mp h with h | h
                    · subst h; rfl
                    · rcases List.mem_cons.mp h with h | h
                      · subst h; rfl
                      · exact absurd h (List.not_mem_nil e)
              · simp only [hst, hs, if_false]
                cases hnr : handle_non_streaming_response env fp data.history with
                | mk res2 evs2 =>
                    have h2 : ∀ e ∈ evs2, isTryEvent e = true := by
                      have h0 := handle_non_streaming_events env fp data.history
                      rw [hnr] at h0; exact h0
                    try simp only [hnr]
                    intro e he
                    rcases List.mem_cons.mp he with h | he2
                    · subst h; rfl
                    · rcases List.mem_append.mp he2 with he3 | h
                      · rcases List.mem_append.mp he3 with h | h
                        · exact h1 _ h
                        · rcases List.mem_cons.mp h with h | h
                          · subst h; rfl
                          · rcases List.mem_cons.mp h with h | h
                            · subst h; rfl
                            · exact absurd h (List.not_mem_nil e)
                      · exact h2 _ h

lemma try_filterMap_nil {α : Type} (env : Env) (data : ConversationIn)
    (f : Event → Option α) (hf : ∀ e, isTryEvent e = true → f e = none) :
    ((conversation_try env data).2).filterMap f = [] :=
  List.filterMap_eq_nil_iff.mpr fun e he => hf e (conversation_try_events env data e he)

lemma try_countP_zero (env : Env) (data : ConversationIn)
    (p : Event → Bool) (hp : ∀ e, isTryEvent e = true → p e = false) :
    ((conversation_try env data).2).countP p = 0 :=
  List.countP_eq_zero.mpr fun e he => by
    simp [hp e (conversation_try_events env data e he)]

/-! ### Metric events of a full request -/

lemma endpoint_counterEvents (env : Env) (data : ConversationIn) :
    counterEvents (conversation_endpoint env data).2 = [(1, api_label)] := by
  cases hct : conversation_try env data with
  | mk res evs =>
      have hevs : evs.filterMap counterOf = [] :=
        List.filterMap_eq_nil_iff.mpr fun e he => by
          have h0 := conversation_try_events env data e (by rw [hct]; exact he)
          cases e <;> first | rfl | simp [isTryEvent] at h0
      cases res <;>
        simp [conversation_endpoint, hct, counterEvents, List.filterMap_cons,
          List.filterMap_append, hevs, counterOf]

lemma endpoint_histogramEvents (env : Env) (data : ConversationIn) :
    histogramEvents (conversation_endpoint env data).2 =
      [(total_duration_init, api_label)] := by
  cases hct : conversation_try env data with
  | mk res evs =>
      have hevs : evs.filterMap histOf = [] :=
        List.filterMap_eq_nil_iff.mpr fun e he => by
          have h0 := conversation_try_events env data e (by rw [hct]; exact he)
          cases e <;> first | rfl | simp [isTryEvent] at h0
      cases res <;>
        simp [conversation_endpoint, hct, histogramEvents, List.filterMap_cons,
          List.filterMap_append, hevs, histOf]

/-! ### Claims -/

/-- C3: on every request — success, client error, or upstream adapter
error — exactly one counter increment (of 1) and exactly one histogram
recording are executed, both labeled with the route identity; no exception
in the stages above can skip them (they are emitted by the `finally`
block on every exit path). -/
theorem metrics_recorded_exactly_once (env : Env) (data : ConversationIn) :
    counterEvents (conversation_endpoint env data).2 = [(1, api_label)] ∧
    (histogramEvents (conversation_endpoint env data).2).length = 1 ∧
    (histogramEvents (conversation_endpoint env data).2).map Prod.snd =
      [api_label] := by
  refine ⟨endpoint_counterEvents env data, ?_, ?_⟩ <;>
    simp [endpoint_histogramEvents env data]

/-- C9: the value recorded into the duration histogram is the initialized
`total_duration`, never updated between initialization and recording, so the
recorded value is exactly 0 on every exit path. -/
theorem histogram_records_zero (env : Env) (data : ConversationIn) :
    histogramEvents (conversation_endpoint env data).2 =
      [(total_duration_init, api_label)] ∧
    total_duration_init = 0 :=
  ⟨endpoint_histogramEvents env data, rfl⟩

lemma stream_generator_eq_filterMap (frags : List Fragment) (n : Nat) :
    stream_generator frags n = frags.filterMap Fragment.content := by
  induction frags generalizing n with
  | nil => rfl
  | cons c rest ih =>
      cases hc : c.content <;>
        simp [stream_generator, hc, List.filterMap_cons, ih]

/-- C5: the delivered chunk sequence equals the subsequence of fragment
contents that are present, in exactly the adapter's yield order — a fragment
with absent content emits nothing but the sequence still advances (the
running `chunk_count` never alters the output), and no present fragment is
reordered, dropped, or duplicated; consuming the streaming response delivers
exactly that sequence. -/
theorem streaming_preserves_present_fragments (frags : List Fragment) (n : Nat)
    (env : Env) (fp : String) (h : List Turn) :
    stream_generator frags n = frags.filterMap Fragment.content ∧
    stream_generator frags n = stream_generator frags 0 ∧
    (consume_stream env fp h).1 =
      ((env.streamAdapter fp "gemini-flash" h).1).filterMap Fragment.content ∧
    (consume_stream env fp h).2 = (env.streamAdapter fp "gemini-flash" h).2 := by
  refine ⟨stream_generator_eq_filterMap frags n, ?_, ?_, ?_⟩
  · rw [stream_generator_eq_filterMap, stream_generator_eq_filterMap]
  · cases hs : env.streamAdapter fp "gemini-flash" h with
    | mk fr err => simp [consume_stream, hs, stream_generator_eq_filterMap]
  · cases hs : env.streamAdapter fp "gemini-flash" h with
    | mk fr err => simp [consume_stream, hs]


/-- C1: on a first-turn request (empty history) whose prompt_type resolves to
a template and a system instruction and whose enhancement call succeeds, the
enhancement adapter is invoked exactly once — single-shot, structured-output
(`parse`), against `gpt-4o-mini`, with the resolved system instruction, on
the catalog template formatted with the caller's latest_prompt — and the
final prompt handed to the Generation stage is exactly the `final_prompt`
field of its structured result. -/
theorem first_turn_enhances_exactly_once (env : Env) (data : ConversationIn)
    (template : String → String) (sys : String) (p : EnhancedPrompt)
    (hh : data.history = [])
    (ht : env.PROMPT_TEMPLATES data.prompt_type = some template)
    (hsys : env.SYSTEM_PROMPTS data.prompt_type = some sys)
    (hadp : env.enhanceAdapter (template data.latest_prompt) "gpt-4o-mini" sys
        data.prompt_type = .ok p) :
    enhanceCallEvents (conversation_endpoint env data).2 =
      [Event.enhanceCall (template data.latest_prompt) "gpt-4o-mini" sys true
        data.prompt_type] ∧
    generationPrompts (conversation_endpoint env data).1
        (conversation_endpoint env data).2 = [p.final_prompt] := by
  have hstep : step1_result env data (template data.latest_prompt) =
      (.ok p.final_prompt,
       [Event.logInfo ("Enhancing prompt with latest prompt: \"" ++
          template data.latest_prompt ++ "\""),
        Event.enhanceCall (template data.latest_prompt) "gpt-4o-mini" sys true
          data.prompt_type]) := by
    simp [step1_result, hh, enhance_prompt, hsys, hadp]
  cases hst : data.stream with
  | false =>
      cases hga : env.generateAdapter p.final_prompt "gemini-flash" data.history with
      | error e =>
          simp [conversation_endpoint, conversation_try, ht, hstep, hst,
            handle_non_streaming_response, hga, enhanceCallEvents,
            generationPrompts, isEnhanceCall, generatePromptOf]
      | ok out =>
          simp [conversation_endpoint, conversation_try, ht, hstep, hst,
            handle_non_streaming_response, hga, enhanceCallEvents,
            generationPrompts, isEnhanceCall, generatePromptOf]
  | true =>
      simp [conversation_endpoint, conversation_try, ht, hstep, hst,
        handle_streaming_response, enhanceCallEvents, generationPrompts,
        isEnhanceCall, generatePromptOf]

/-- C2: on a later-turn request (non-empty history) the enhancement adapter
is never invoked, and every prompt handed to the Generation stage is the
request's `message` field verbatim. -/
theorem later_turns_use_message_verbatim (env : Env) (data : ConversationIn)
    (hh : data.history ≠ []) :
    enhanceCallCount (conversation_endpoint env data).2 = 0 ∧
    ∀ q ∈ generationPrompts (conversation_endpoint env data).1
        (conversation_endpoint env data).2, q = data.message := by
  have hstep : ∀ formatted, step1_result env data formatted =
      (.ok data.message, []) := fun formatted => by
    simp [step1_result, hh]
  cases ht : env.PROMPT_TEMPLATES data.prompt_type with
  | none =>
      simp [conversation_endpoint, conversation_try, ht, enhanceCallCount,
        generationPrompts, isEnhanceCall, generatePromptOf]
  | some template =>
      cases hst : data.stream with
      | false =>
          cases hga : env.generateAdapter data.message "gemini-flash" data.history with
          | error e =>
              simp [conversation_endpoint, conversation_try, ht, hstep, hst,
                handle_non_streaming_response, hga, enhanceCallCount,
                generationPrompts, isEnhanceCall, generatePromptOf]
          | ok out =>
              simp [conversation_endpoint, conversation_try, ht, hstep, hst,
                handle_non_streaming_response, hga, enhanceCallCount,
                generationPrompts, isEnhanceCall, generatePromptOf]
      | true =>
          simp [conversation_endpoint, conversation_try, ht, hstep, hst,
            handle_streaming_response, enhanceCallCount, generationPrompts,
            isEnhanceCall, generatePromptOf]

/-- C10: the catalog template lookup for prompt_type happens before either
stage runs, even on a later-turn request where enhancement is skipped and the
formatted result is never used: with non-empty history and an unresolved
prompt_type, no adapter call is made, no stage span is opened, and the
request fails. -/
theorem template_lookup_precedes_stages (env : Env) (data : ConversationIn)
    (_hh : data.history ≠ [])
    (ht : env.PROMPT_TEMPLATES data.prompt_type = none) :
    (conversation_endpoint env data).1 =
      .httpError 500 ("An Error occurred: " ++ keyErrorStr data.prompt_type) ∧
    adapterCallCount (conversation_endpoint env data).2 = 0 ∧
    spanNames (conversation_endpoint env data).2 = ["processors"] := by
  simp [conversation_endpoint, conversation_try, ht, adapterCallCount,
    isAdapterCall, isEnhanceCall, isGenerateCall, spanNames, spanEvents,
    spanOf, api_label]

/-- C4 (amended): a request whose prompt_type has no entry in the prompt
template catalog makes no enhancement or generation adapter call, and it
fails with the uniform server-error envelope — status 500,
`detail = 'An Error occurred: <KeyError repr>'` — not with a 4xx
client-error status. -/
theorem unknown_prompt_type_fails_with_500 (env : Env) (data : ConversationIn)
    (ht : env.PROMPT_TEMPLATES data.prompt_type = none) :
    (conversation_endpoint env data).1 =
      .httpError 500 ("An Error occurred: " ++ keyErrorStr data.prompt_type) ∧
    adapterCallCount (conversation_endpoint env data).2 = 0 ∧
    ¬ statusIs4xx (conversation_endpoint env data).1 := by
  have h1 : (conversation_endpoint env data).1 =
      .httpError 500 ("An Error occurred: " ++ keyErrorStr data.prompt_type) := by
    simp [conversation_endpoint, conversation_try, ht]
  refine ⟨h1, ?_, ?_⟩
  · simp [conversation_endpoint, conversation_try, ht, adapterCallCount,
      isAdapterCall, isEnhanceCall, isGenerateCall]
  · rw [h1]
    simp [statusIs4xx]


lemma step1_result_no_generate (env : Env) (data : ConversationIn)
    (formatted : String) :
    ((step1_result env data formatted).2).countP isGenerateCall = 0 := by
  unfold step1_result
  by_cases hh : data.history = []
  · simp only [hh, if_true]
    unfold enhance_prompt
    cases hsys : env.SYSTEM_PROMPTS data.prompt_type with
    | none => simp [isGenerateCall]
    | some sys =>
        cases ha : env.enhanceAdapter formatted "gpt-4o-mini" sys data.prompt_type with
        | error e => simp [ha, isGenerateCall]
        | ok p => simp [ha, isGenerateCall]
  · simp [hh]

lemma step1_result_no_span (env : Env) (data : ConversationIn)
    (formatted : String) :
    ((step1_result env data formatted).2).filterMap spanOf = [] := by
  unfold step1_result
  by_cases hh : data.history = []
  · simp only [hh, if_true]
    unfold enhance_prompt
    cases hsys : env.SYSTEM_PROMPTS data.prompt_type with
    | none => simp [spanOf]
    | some sys =>
        cases ha : env.enhanceAdapter formatted "gpt-4o-mini" sys data.prompt_type with
        | error e => simp [ha, spanOf]
        | ok p => simp [ha, spanOf]
  · simp [hh]

/-- C6: on the non-streaming path, a failing adapter call — enhancement or
generation — is answered by the 500 envelope whose JSON detail is
`'An Error occurred: <message>'` with the upstream error message embedded and
with no local retry (the failing adapter is invoked exactly once); on success
the body is exactly `{'response': <generation output>}`. -/
theorem non_streaming_error_envelope (env : Env) (data : ConversationIn)
    (template : String → String)
    (hs : data.stream = false)
    (ht : env.PROMPT_TEMPLATES data.prompt_type = some template) :
    (∀ sys e, data.history = [] →
      env.SYSTEM_PROMPTS data.prompt_type = some sys →
      env.enhanceAdapter (template data.latest_prompt) "gpt-4o-mini" sys
        data.prompt_type = .error e →
      (conversation_endpoint env data).1 =
        .httpError 500 ("An Error occurred: " ++ e) ∧
      enhanceCallCount (conversation_endpoint env data).2 = 1 ∧
      generateCallCount (conversation_endpoint env data).2 = 0) ∧
    (∀ final_prompt evs1 e,
      step1_result env data (template data.latest_prompt) =
        (.ok final_prompt, evs1) →
      env.generateAdapter final_prompt "gemini-flash" data.history = .error e →
      (conversation_endpoint env data).1 =
        .httpError 500 ("An Error occurred: " ++ e) ∧
      generateCallCount (conversation_endpoint env data).2 = 1) ∧
    (∀ final_prompt evs1 out,
      step1_result env data (template data.latest_prompt) =
        (.ok final_prompt, evs1) →
      env.generateAdapter final_prompt "gemini-flash" data.history = .ok out →
      (conversation_endpoint env data).1 = .ok (.json out)) := by
  refine ⟨?_, ?_, ?_⟩
  · intro sys e hh hsys henh
    have hstep : step1_result env data (template data.latest_prompt) =
        (.error e,
         [Event.logInfo ("Enhancing prompt with latest prompt: \"" ++
            template data.latest_prompt ++ "\""),
          Event.enhanceCall (template data.latest_prompt) "gpt-4o-mini" sys true
            data.prompt_type]) := by
      simp [step1_result, hh, enhance_prompt, hsys, henh]
    refine ⟨?_, ?_, ?_⟩ <;>
      simp [conversation_endpoint, conversation_try, ht, hstep,
        enhanceCallCount, generateCallCount, isEnhanceCall, isGenerateCall]
  · intro final_prompt evs1 e hstep hga
    have hng : evs1.countP isGenerateCall = 0 := by
      have h0 := step1_result_no_generate env data (template data.latest_prompt)
      rw [hstep] at h0; exact h0
    refine ⟨?_, ?_⟩ <;>
      simp [conversation_endpoint, conversation_try, ht, hstep, hs,
        handle_non_streaming_response, hga, generateCallCount,
        List.countP_cons, List.countP_append, hng, isGenerateCall]
  · intro final_prompt evs1 out hstep hga
    simp [conversation_endpoint, conversation_try, ht, hstep, hs,
      handle_non_streaming_response, hga]

/-- C7: on the streaming path — whenever the handler returns a streaming
response — the response is the event-stream over the captured final prompt
and history, no generation adapter call was made before the response was
returned, and an adapter failure raised mid-sequence is not converted into
the pipeline-level 500 envelope: consuming the already-open stream delivers
the full prefix of present fragment contents and then surfaces the failure
as the terminal error of the stream, with no retry. -/
theorem streaming_midstream_failure_terminal (env : Env) (data : ConversationIn)
    (fp : String) (h : List Turn) (mt : String)
    (hs : data.stream = true)
    (hres : (conversation_endpoint env data).1 = .ok (.streaming fp h mt)) :
    mt = "text/event-stream" ∧ h = data.history ∧
    generateCallCount (conversation_endpoint env data).2 = 0 ∧
    (∀ frags e, env.streamAdapter fp "gemini-flash" h = (frags, some e) →
      consume_stream env fp h = (frags.filterMap Fragment.content, some e)) := by
  cases ht : env.PROMPT_TEMPLATES data.prompt_type with
  | none =>
      exfalso
      rw [show (conversation_endpoint env data).1 =
          .httpError 500 ("An Error occurred: " ++ keyErrorStr data.prompt_type)
        from by simp [conversation_endpoint, conversation_try, ht]] at hres
      exact EndpointResult.noConfusion hres
  | some template =>
      cases hstep : step1_result env data (template data.latest_prompt) with
      | mk s1 evs1 =>
          have hng : evs1.countP isGenerateCall = 0 := by
            have h0 := step1_result_no_generate env data (template data.latest_prompt)
            rw [hstep] at h0; exact h0
          cases s1 with
          | error e =>
              exfalso
              rw [show (conversation_endpoint env data).1 =
                  .httpError 500 ("An Error occurred: " ++ e)
                from by simp [conversation_endpoint, conversation_try, ht, hstep]] at hres
              exact EndpointResult.noConfusion hres
          | ok final_prompt =>
              have hend : (conversation_endpoint env data).1 =
                  .ok (.streaming final_prompt data.history "text/event-stream") := by
                simp [conversation_endpoint, conversation_try, ht, hstep, hs,
                  handle_streaming_response]
              rw [hend] at hres
              have h1 : final_prompt = fp ∧ data.history = h ∧
                  "text/event-stream" = mt := by
                have h2 := hres
                simp only [EndpointResult.ok.injEq, Response.streaming.injEq] at h2
                exact h2
              refine ⟨h1.2.2.symm, h1.2.1.symm, ?_, ?_⟩
              · simp [conversation_endpoint, conversation_try, ht, hstep, hs,
                  handle_streaming_response, generateCallCount,
                  List.countP_cons, List.countP_append, hng, isGenerateCall]
              · intro frags e hsa
                simp [consume_stream, hsa, stream_generator_eq_filterMap]

/-- C8 (amended): on every request that completes the pipeline (the template
resolves and step 1 produces a final prompt), the handler opens exactly three
spans, in order: the root span `processors` (no parent, no links), then
`step-1-enhance_prompt` and `step-2-generate_response`, each of the latter
two opened by `start_as_current_span` inside the root span's context — so
each IS a parent-child child of `processors` — and each additionally
carrying an explicit link (a backward reference) to the root span's
context. -/
theorem spans_opened_with_root_link (env : Env) (data : ConversationIn)
    (template : String → String) (final_prompt : String) (evs1 : List Event)
    (ht : env.PROMPT_TEMPLATES data.prompt_type = some template)
    (hstep : step1_result env data (template data.latest_prompt) =
      (.ok final_prompt, evs1)) :
    spanEvents (conversation_endpoint env data).2 =
      [("processors", none, ([] : List String)),
       ("step-1-enhance_prompt", some "processors", ["processors"]),
       ("step-2-generate_response", some "processors", ["processors"])] := by
  have hns : evs1.filterMap spanOf = [] := by
    have h0 := step1_result_no_span env data (template data.latest_prompt)
    rw [hstep] at h0; exact h0
  cases hst : data.stream with
  | true =>
      simp [conversation_endpoint, conversation_try, ht, hstep, hst,
        handle_streaming_response, spanEvents, List.filterMap_cons,
        List.filterMap_append, hns, spanOf]
  | false =>
      cases hga : env.generateAdapter final_prompt "gemini-flash" data.history with
      | error e =>
          simp [conversation_endpoint, conversation_try, ht, hstep, hst,
            handle_non_streaming_response, hga, spanEvents, List.filterMap_cons,
            List.filterMap_append, hns, spanOf]
      | ok out =>
          simp [conversation_endpoint, conversation_try, ht, hstep, hst,
            handle_non_streaming_response, hga, spanEvents, List.filterMap_cons,
            List.filterMap_append, hns, spanOf]


/-! ### Counterexamples and witnesses on concrete runs -/

/-- C4 counterexample: a concrete request whose prompt_type resolves nowhere
in the catalog makes no adapter call but is answered with status 500 — a
server error, not the 4xx-equivalent client error the claim states. -/
theorem unknown_prompt_type_counterexample :
    (conversation_endpoint baseEnv dataBad).1 =
      .httpError 500 "An Error occurred: \x27unknown_key\x27" ∧
    adapterCallCount (conversation_endpoint baseEnv dataBad).2 = 0 ∧
    ¬ statusIs4xx (conversation_endpoint baseEnv dataBad).1 := by
  decide

/-- Witness for the amended C4 theorem at a concrete environment and
request. -/
theorem unknown_prompt_type_fails_with_500_witness :
    baseEnv.PROMPT_TEMPLATES dataBad.prompt_type = none ∧
    ((conversation_endpoint baseEnv dataBad).1 =
        .httpError 500 ("An Error occurred: " ++ keyErrorStr dataBad.prompt_type) ∧
      adapterCallCount (conversation_endpoint baseEnv dataBad).2 = 0 ∧
      ¬ statusIs4xx (conversation_endpoint baseEnv dataBad).1) :=
  ⟨rfl, unknown_prompt_type_fails_with_500 baseEnv dataBad rfl⟩

/-- C8 counterexample, refuting the claim on a concrete run in three ways:
the two stage spans are named `step-1-enhance_prompt` and
`step-2-generate_response` (underscores), not `step-1-enhance-prompt` /
`step-2-generate-response` as the claim states; each stage span IS opened as
a parent-child child of the root span (`start_as_current_span` runs inside
the `processors` context), contradicting the claim's "not by parent-child
nesting"; and on a request with an unresolved prompt_type only the root span
opens at all, so the claim's "for every request" fails too. -/
theorem span_names_counterexample :
    spanNames (conversation_endpoint baseEnv dataFirst).2 =
      ["processors", "step-1-enhance_prompt", "step-2-generate_response"] ∧
    "step-1-enhance-prompt" ∉ spanNames (conversation_endpoint baseEnv dataFirst).2 ∧
    "step-2-generate-response" ∉ spanNames (conversation_endpoint baseEnv dataFirst).2 ∧
    spanEvents (conversation_endpoint baseEnv dataFirst).2 =
      [("processors", none, ([] : List String)),
       ("step-1-enhance_prompt", some "processors", ["processors"]),
       ("step-2-generate_response", some "processors", ["processors"])] ∧
    spanNames (conversation_endpoint baseEnv dataBad).2 = ["processors"] := by
  decide

/-- Witness for the amended C8 theorem at a concrete environment and
request. -/
theorem spans_opened_with_root_link_witness :
    baseEnv.PROMPT_TEMPLATES dataFirst.prompt_type = some sampleTemplate ∧
    spanEvents (conversation_endpoint baseEnv dataFirst).2 =
      [("processors", none, ([] : List String)),
       ("step-1-enhance_prompt", some "processors", ["processors"]),
       ("step-2-generate_response", some "processors", ["processors"])] :=
  ⟨rfl, spans_opened_with_root_link baseEnv dataFirst sampleTemplate
    "ENH T[write a poem]"
    [Event.logInfo "Enhancing prompt with latest prompt: \"T[write a poem]\"",
     Event.enhanceCall "T[write a poem]" "gpt-4o-mini" "SYS" true "creative"]
    rfl rfl⟩

/-- Witness for C1 at a concrete environment and first-turn request. -/
theorem first_turn_enhances_exactly_once_witness :
    dataFirst.history = [] ∧
    enhanceCallEvents (conversation_endpoint baseEnv dataFirst).2 =
      [Event.enhanceCall (sampleTemplate dataFirst.latest_prompt) "gpt-4o-mini"
        "SYS" true dataFirst.prompt_type] ∧
    generationPrompts (conversation_endpoint baseEnv dataFirst).1
        (conversation_endpoint baseEnv dataFirst).2 = ["ENH T[write a poem]"] :=
  ⟨rfl, first_turn_enhances_exactly_once baseEnv dataFirst sampleTemplate "SYS"
    ⟨"ENH T[write a poem]"⟩ rfl rfl rfl rfl⟩

/-- Witness for C2 at a concrete environment and later-turn request. -/
theorem later_turns_use_message_verbatim_witness :
    dataNext.history ≠ [] ∧
    enhanceCallCount (conversation_endpoint baseEnv dataNext).2 = 0 ∧
    generationPrompts (conversation_endpoint baseEnv dataNext).1
        (conversation_endpoint baseEnv dataNext).2 = [dataNext.message] :=
  ⟨by decide, (later_turns_use_message_verbatim baseEnv dataNext (by decide)).1,
    by decide⟩

/-- Witness for C6: concrete non-streaming runs — a failing generation
adapter on a later turn and on a first turn (after a successful enhancement),
a failing enhancement adapter on a first turn, and the success bodies of a
first-turn and a later-turn request. -/
theorem non_streaming_error_envelope_witness :
    ((conversation_endpoint envGenFail dataNext).1 =
        .httpError 500 ("An Error occurred: " ++ "gen-boom") ∧
      generateCallCount (conversation_endpoint envGenFail dataNext).2 = 1) ∧
    ((conversation_endpoint envGenFail dataFirst).1 =
        .httpError 500 ("An Error occurred: " ++ "gen-boom") ∧
      generateCallCount (conversation_endpoint envGenFail dataFirst).2 = 1) ∧
    ((conversation_endpoint envEnhFail dataFirst).1 =
        .httpError 500 ("An Error occurred: " ++ "enh-boom") ∧
      enhanceCallCount (conversation_endpoint envEnhFail dataFirst).2 = 1 ∧
      generateCallCount (conversation_endpoint envEnhFail dataFirst).2 = 0) ∧
    (conversation_endpoint baseEnv dataFirst).1 =
      .ok (.json "GEN ENH T[write a poem]") ∧
    (conversation_endpoint baseEnv dataNext).1 = .ok (.json "GEN tell me more") :=
  ⟨(non_streaming_error_envelope envGenFail dataNext sampleTemplate rfl rfl).2.1
      "tell me more" [] "gen-boom" rfl rfl,
   (non_streaming_error_envelope envGenFail dataFirst sampleTemplate rfl rfl).2.1
      "ENH T[write a poem]"
      [Event.logInfo "Enhancing prompt with latest prompt: \"T[write a poem]\"",
       Event.enhanceCall "T[write a poem]" "gpt-4o-mini" "SYS" true "creative"]
      "gen-boom" rfl rfl,
   (non_streaming_error_envelope envEnhFail dataFirst sampleTemplate rfl rfl).1
      "SYS" "enh-boom" rfl rfl rfl,
   (non_streaming_error_envelope baseEnv dataFirst sampleTemplate rfl rfl).2.2
      "ENH T[write a poem]"
      [Event.logInfo "Enhancing prompt with latest prompt: \"T[write a poem]\"",
       Event.enhanceCall "T[write a poem]" "gpt-4o-mini" "SYS" true "creative"]
      "GEN ENH T[write a poem]" rfl rfl,
   (non_streaming_error_envelope baseEnv dataNext sampleTemplate rfl rfl).2.2
      "tell me more" [] "GEN tell me more" rfl rfl⟩

/-- Witness for C7: a concrete streaming request whose adapter raises after
yielding two present fragments — the prefix is delivered, the terminal error
follows, and the HTTP-level result is the already-returned stream, not a 500
envelope. -/
theorem streaming_midstream_failure_terminal_witness :
    dataStream.stream = true ∧
    (conversation_endpoint envStreamFail dataStream).1 =
      .ok (.streaming "tell me more" dataStream.history "text/event-stream") ∧
    generateCallCount (conversation_endpoint envStreamFail dataStream).2 = 0 ∧
    consume_stream envStreamFail "tell me more" dataStream.history =
      (["a", "b"], some "mid-boom") := by
  have h := streaming_midstream_failure_terminal envStreamFail dataStream
    "tell me more" dataStream.history "text/event-stream" rfl (by decide)
  refine ⟨rfl, by decide, h.2.2.1, ?_⟩
  have h4 := h.2.2.2 [⟨some "a"⟩, ⟨none⟩, ⟨some "b"⟩] "mid-boom" rfl
  simpa using h4

/-- Witness for C10 at a concrete later-turn request with an unresolved
prompt_type. -/
theorem template_lookup_precedes_stages_witness :
    dataBadNext.history ≠ [] ∧
    ((conversation_endpoint baseEnv dataBadNext).1 =
        .httpError 500 ("An Error occurred: " ++ keyErrorStr dataBadNext.prompt_type) ∧
      adapterCallCount (conversation_endpoint baseEnv dataBadNext).2 = 0 ∧
      spanNames (conversation_endpoint baseEnv dataBadNext).2 = ["processors"]) :=
  ⟨by decide, template_lookup_precedes_stages baseEnv dataBadNext (by decide) rfl⟩


end Conversation
